import Mathlib

/-!
# Verification of the claude-usage waybar module

Shallow embedding of `src/index.ts`: a status-bar usage monitor that
resolves an OAuth credential from two file sources, fetches usage and
profile data, raises desktop notifications at fixed utilization
thresholds, and prints a single waybar JSON payload.

Modelling conventions:
* JavaScript numbers that the program only floors or compares are
  modelled as `Rat` (doubles are dyadic rationals, and `Math.floor` on
  them agrees with `Rat.floor`); already-floored integers as `Int`.
* `Date.now()` and the result of `new Date(s).getTime()` are epoch
  milliseconds (`Int`); an unparsable date (`NaN`) is `none`, and every
  comparison `now >= NaN` is `false`, as in JS.
* Platform primitives the program calls (`new Date(...)` parsing, local
  time-of-day parts, `Number.prototype.toFixed`) are abstract functions
  carried in the environment `Env`; the program's own logic is never
  abstracted.
* Absent JSON fields are `none`.  One representation subtlety is kept
  explicit: in `checkAndNotify` the persisted `state.last_reset` is
  `string | null` while the current `resetAt` is `string | undefined`,
  and the source compares them with strict `!==`, under which
  `null !== undefined` is `true`.  `strictNeMarker` encodes exactly
  that comparison.
-/

namespace ClaudeUsage

/-- Notification thresholds, `THRESHOLDS = [50, 80, 90, 95]` in the source
(only notify once per threshold crossing). -/
def THRESHOLDS : List Int := [50, 80, 90, 95]

/-- Persisted notification state (`interface State`):
`notified_thresholds: number[]`, `last_reset: string | null`
(`none` = JSON `null`). -/
structure State where
  notified_thresholds : List Int
  last_reset : Option String
deriving Repr, DecidableEq

/-- The `claudeAiOauth` sub-object of the Claude CLI credentials file:
`accessToken?: string`, `expiresAt?: string` (ISO date string). -/
structure ClaudeOauth where
  accessToken : Option String
  expiresAt : Option String
deriving Repr, DecidableEq

/-- `interface ClaudeCredentials { claudeAiOauth?: ... }`. -/
structure ClaudeCredentials where
  claudeAiOauth : Option ClaudeOauth
deriving Repr, DecidableEq

/-- The `anthropic` sub-object of the OpenCode auth file:
`type?: string`, `access?: string`, `expires?: number` (epoch ms). -/
structure OpenCodeAnthropic where
  type : Option String
  access : Option String
  expires : Option Int
deriving Repr, DecidableEq

/-- `interface OpenCodeAuth { anthropic?: ... }`. -/
structure OpenCodeAuth where
  anthropic : Option OpenCodeAnthropic
deriving Repr, DecidableEq

/-- The argument type of `isExpired`: `string | number | undefined`. -/
inductive ExpVal where
  | str (s : String)
  | num (n : Int)
  | undefined
deriving Repr, DecidableEq

/-- JS truthiness of an `ExpVal`: `""`, `0` and `undefined` are falsy
(the guard `if (!expiresAt) return false` in `isExpired`). -/
def jsTruthyExp : ExpVal → Bool
  | .str s => s ≠ ""
  | .num n => n ≠ 0
  | .undefined => false

/-- `isExpired(expiresAt)`: falsy expiry is "not expired"; otherwise
`Date.now() >= expiryTime`, where a string expiry is parsed by
`new Date(expiresAt).getTime()` (modelled by `pd`; `none` = `NaN`, and
`now >= NaN` is `false`). -/
def isExpired (pd : String → Option Int) (now : Int) (e : ExpVal) : Bool :=
  if jsTruthyExp e then
    match e with
    | .num n => decide (now ≥ n)
    | .str s =>
      match pd s with
      | some t => decide (now ≥ t)
      | none => false
    | .undefined => false
  else
    false

/-- View an optional ISO string field as an `isExpired` argument. -/
def expValOfStr : Option String → ExpVal
  | some s => .str s
  | none => .undefined

/-- View an optional epoch-milliseconds field as an `isExpired` argument. -/
def expValOfNum : Option Int → ExpVal
  | some n => .num n
  | none => .undefined

/-- `getClaudeToken()`: the outer `none` covers a missing, unreadable or
JSON-malformed credentials file (all return `null` in the source).  A
present file yields its parsed `ClaudeCredentials`; the token is
returned unless `claudeAiOauth` or `accessToken` is absent or empty
(`!oauth?.accessToken`) or the credential is expired. -/
def getClaudeToken (pd : String → Option Int) (now : Int) :
    Option ClaudeCredentials → Option String
  | none => none
  | some creds =>
    match creds.claudeAiOauth with
    | none => none
    | some oauth =>
      match oauth.accessToken with
      | none => none
      | some tok =>
        if tok = "" then none
        else if isExpired pd now (expValOfStr oauth.expiresAt) then none
        else some tok

/-- `getOpenCodeToken()`: the outer `none` covers a missing, unreadable
or malformed auth file.  Returns `null` when `anthropic?.access` is
falsy or `anthropic.type !== "oauth"` (strict, so an absent `type`
fails), or when the credential is expired. -/
def getOpenCodeToken (pd : String → Option Int) (now : Int) :
    Option OpenCodeAuth → Option String
  | none => none
  | some auth =>
    match auth.anthropic with
    | none => none
    | some a =>
      match a.access with
      | none => none
      | some tok =>
        if tok = "" then none
        else if a.type ≠ some "oauth" then none
        else if isExpired pd now (expValOfNum a.expires) then none
        else some tok

/-- `getAccessToken()`: try the Claude CLI credentials first; if that
yields a (necessarily nonempty, hence truthy) token return it,
otherwise fall back to the OpenCode credentials. -/
def getAccessToken (pd : String → Option Int) (now : Int)
    (cc : Option ClaudeCredentials) (oc : Option OpenCodeAuth) :
    Option String :=
  match getClaudeToken pd now cc with
  | some t => some t
  | none => getOpenCodeToken pd now oc

/-- `timeUntil(resetStr)`: human-readable time until reset.  The source
works in float seconds `secs = (reset - now) / 1000`; here `msec`
(`Int`) carries the exact value, so `secs < 3600` is `msec < 3600000`
and `Math.floor(secs / 60)` is `msec / 60000` (nonnegative in every
branch that divides).  When parsing yields `NaN`, all three bound
checks are false and the final branch formats `NaN` values, printing
`"NaNd NaNh"`. -/
def timeUntil (pd : String → Option Int) (now : Int) :
    Option String → String
  | none => "N/A"
  | some s =>
    match pd s with
    | none => "NaNd NaNh"
    | some t =>
      let msec : Int := t - now
      if msec < 0 then "now"
      else if msec < 3600000 then
        toString (msec / 60000) ++ "m"
      else if msec < 86400000 then
        toString (msec / 3600000) ++ "h " ++
          toString ((msec % 3600000) / 60000) ++ "m"
      else
        toString (msec / 86400000) ++ "d " ++
          toString ((msec % 86400000) / 3600000) ++ "h"

/-- `padStart(2, "0")` on a `Nat` rendered in decimal. -/
def pad2 (n : Nat) : String :=
  let s := toString n
  if s.length < 2 then "0" ++ s else s

/-- The `days` array in `formatResetTime`. -/
def dayNames : List String :=
  ["Sun", "Mon", "Tue", "Wed", "Thu", "Fri", "Sat"]

/-- `formatResetTime(resetStr)`: local `"Day HH:MM"` label.  `lp` is the
platform's local-time decomposition `(getDay, getHours, getMinutes)` of
a valid date.  On an unparsable date the source indexes `days` with
`NaN` and pads `"NaN"`, printing `"undefined NaN:NaN"`. -/
def formatResetTime (pd : String → Option Int)
    (lp : Int → Nat × Nat × Nat) : Option String → String
  | none => "N/A"
  | some s =>
    match pd s with
    | none => "undefined NaN:NaN"
    | some t =>
      let parts := lp t
      dayNames.getD parts.1 "undefined" ++ " " ++
        pad2 parts.2.1 ++ ":" ++ pad2 parts.2.2

/-- The urgency/icon choice inside the notification loop of
`checkAndNotify`, as a function of the threshold: `>= 90` is critical
with a red circle, `>= 80` critical with an orange circle, otherwise
normal with a yellow circle. -/
def severityFor (t : Int) : String × String :=
  if t ≥ 90 then ("critical", "🔴")
  else if t ≥ 80 then ("critical", "🟠")
  else ("normal", "🟡")

/-- One desktop notification sent by `checkAndNotify` via
`sendNotification(title, body, urgency)`; `threshold` and `icon` record
the loop locals that produced it. -/
structure NotifyEvent where
  threshold : Int
  urgency : String
  icon : String
  title : String
  body : String
deriving Repr, DecidableEq

/-- The notification sent for `threshold` when the 5-hour usage is at
`fivePct` and resets at `resetAt` (title
`` `${icon} Claude Usage ${threshold}%` `` and body
`` `5-hour limit at ${fivePct}%\nResets in ${resetIn}` ``). -/
def eventFor (pd : String → Option Int) (now : Int) (fivePct : Int)
    (resetAt : Option String) (threshold : Int) : NotifyEvent :=
  { threshold := threshold
    urgency := (severityFor threshold).1
    icon := (severityFor threshold).2
    title := (severityFor threshold).2 ++ " Claude Usage " ++
      toString threshold ++ "%"
    body := "5-hour limit at " ++ toString fivePct ++
      "%\nResets in " ++ timeUntil pd now resetAt }

/-- The comparison `state.last_reset !== resetAt` of `checkAndNotify`.
The left value ranges over `string | null` and the right over
`string | undefined`; strict `!==` distinguishes `null` from
`undefined`, so the two sides are equal only when both are strings and
equal — in every mixed or doubly-absent case the markers "differ". -/
def strictNeMarker : Option String → Option String → Bool
  | some a, some b => a ≠ b
  | _, _ => true

/-- The body of the `for (const threshold of THRESHOLDS)` loop of
`checkAndNotify`: when `fivePct >= threshold` and the threshold is not
yet in the notified list, send one notification and push the
threshold; otherwise leave the accumulator unchanged. -/
def notifyStep (pd : String → Option Int) (now : Int) (fivePct : Int)
    (resetAt : Option String) (acc : List Int × List NotifyEvent)
    (threshold : Int) : List Int × List NotifyEvent :=
  if fivePct ≥ threshold ∧ threshold ∉ acc.1 then
    (acc.1 ++ [threshold],
     acc.2 ++ [eventFor pd now fivePct resetAt threshold])
  else acc

/-- `checkAndNotify(fivePct, resetAt, state)`: clear the notified set
and adopt the new marker when `state.last_reset !== resetAt`
(`resetAt ?? null` stores an absent marker as `null`, i.e. `none`);
then walk `THRESHOLDS` in order, and for each threshold with
`fivePct >= threshold` not yet in `notified`, send one notification and
push the threshold.  Returns the updated state and the notifications
sent, in order. -/
def checkAndNotify (pd : String → Option Int) (now : Int)
    (fivePct : Int) (resetAt : Option String) (state : State) :
    State × List NotifyEvent :=
  let state1 : State :=
    if strictNeMarker state.last_reset resetAt then
      { notified_thresholds := [], last_reset := resetAt }
    else state
  let fold := THRESHOLDS.foldl (notifyStep pd now fivePct resetAt)
    (state1.notified_thresholds, [])
  ({ notified_thresholds := fold.1, last_reset := state1.last_reset },
   fold.2)

/-- What reading the state file can yield: the source's `loadState`
treats a missing file and a read/JSON failure the same way, and takes a
successfully parsed document as-is (no shape validation). -/
inductive StateFileRead where
  | missing
  | unreadable
  | parsed (s : State)
deriving Repr, DecidableEq

/-- `loadState()`: the parsed state when the file exists and parses,
otherwise the zero-value `{ notified_thresholds: [], last_reset: null }`;
errors are swallowed, never propagated. -/
def loadState : StateFileRead → State
  | .parsed s => s
  | _ => { notified_thresholds := [], last_reset := none }

/-- `interface UsageWindow { utilization?: number; resets_at?: string }`. -/
structure UsageWindow where
  utilization : Option Rat
  resets_at : Option String
deriving Repr, DecidableEq

/-- `interface ExtraUsage`: enable flag, used credits and optional
monthly cap (`monthly_limit?: number | null`; both `null` and absence
are `none`, and the source only tests truthiness). -/
structure ExtraUsage where
  is_enabled : Option Bool
  used_credits : Option Rat
  monthly_limit : Option Rat
deriving Repr, DecidableEq

/-- The optional top-level `error: { message?: string }` object. -/
structure ApiError where
  message : Option String
deriving Repr, DecidableEq

/-- `interface UsageResponse`. -/
structure UsageResponse where
  five_hour : Option UsageWindow
  seven_day : Option UsageWindow
  extra_usage : Option ExtraUsage
  error : Option ApiError
deriving Repr, DecidableEq

/-- The `account` sub-object of the profile response. -/
structure ProfileAccount where
  full_name : Option String
deriving Repr, DecidableEq

/-- The `organization` sub-object of the profile response. -/
structure ProfileOrg where
  name : Option String
  organization_type : Option String
  rate_limit_tier : Option String
deriving Repr, DecidableEq

/-- The profile response.  The TS `ProfileResponse` interface declares
no `error` field, but the wire format allows a top-level error object
on either response; it is carried here so that its (non-)handling can
be stated.  `main` never reads it. -/
structure ProfileResponse where
  account : Option ProfileAccount
  organization : Option ProfileOrg
  error : Option ApiError
deriving Repr, DecidableEq

/-- The waybar payload (`interface WaybarOutput`); `cls` is the JSON
field named `class`, which is a Lean keyword. -/
structure WaybarOutput where
  text : String
  tooltip : String
  cls : String
  percentage : Option Int
deriving Repr, DecidableEq

/-- `padStart(w)` with pad character `c` (JS default pad is a space). -/
def padStart (w : Nat) (c : Char) (s : String) : String :=
  String.mk (List.replicate (w - s.length) c) ++ s

/-- `.replace(/_/g, " ")`. -/
def replaceUnderscores (s : String) : String :=
  String.map (fun c => if c = '_' then ' ' else c) s

/-- A regex `\w` character: `[A-Za-z0-9_]`. -/
def isWordChar (c : Char) : Bool :=
  c.isAlphanum || c = '_'

/-- One pass of `.replace(/\b\w/g, (c) => c.toUpperCase())`: upcase each
word character whose predecessor is not a word character.  The boolean
argument says whether the previous character was a word character. -/
def upcaseAfterBoundary : Bool → List Char → List Char
  | _, [] => []
  | prevWord, c :: cs =>
    let c2 := if isWordChar c && !prevWord then c.toUpper else c
    c2 :: upcaseAfterBoundary (isWordChar c) cs

/-- `.replace(/\b\w/g, (c) => c.toUpperCase())` on a whole string. -/
def titleCaseWords (s : String) : String :=
  String.mk (upcaseAfterBoundary false s.data)

/-- Everything one invocation of the program observes from the outside
world: the platform date/number primitives, the clock, the two
credential files, the result of the two concurrent API fetches
(`Except.error` = the `Promise.all` rejected), the state file, and
whether the best-effort state write fails. -/
structure Env where
  parseDate : String → Option Int
  localParts : Int → Nat × Nat × Nat
  toFixed2 : Rat → String
  now : Int
  claudeCreds : Option ClaudeCredentials
  openCodeAuth : Option OpenCodeAuth
  fetchResult : Except String (UsageResponse × ProfileResponse)
  stateFile : StateFileRead
  saveFails : Bool

/-- What one invocation of `main` does: the payload printed to stdout,
the state written back (`none` when nothing was written), and the
desktop notifications sent. -/
structure MainResult where
  out : WaybarOutput
  saved : Option State
  events : List NotifyEvent
deriving Repr

/-- `main()`: resolve a token (else the no-credentials error payload),
fetch usage and profile (a rejected fetch yields the API-error
payload), short-circuit on `usage.error`, then floor the two window
utilizations, run the threshold notifier over the loaded state, save
best-effort, pick the CSS class (`>80` critical, `>50` warning, else
normal) and format the tooltip exactly as the source does. -/
def main (env : Env) : MainResult :=
  match getAccessToken env.parseDate env.now env.claudeCreds env.openCodeAuth with
  | none =>
    { out := { text := "󰧑 ?"
               tooltip := "No valid credentials found\n\nRun 'claude' or 'opencode' to authenticate"
               cls := "error", percentage := none }
      saved := none, events := [] }
  | some _tok =>
    match env.fetchResult with
    | .error e =>
      { out := { text := "󰧑 !", tooltip := "API error: " ++ e
                 cls := "error", percentage := none }
        saved := none, events := [] }
    | .ok (usage, profile) =>
      match usage.error with
      | some err =>
        { out := { text := "󰧑 !"
                   tooltip := "API error: " ++ err.message.getD "Unknown"
                   cls := "error", percentage := none }
          saved := none, events := [] }
      | none =>
        let fiveHour := usage.five_hour.getD { utilization := none, resets_at := none }
        let sevenDay := usage.seven_day.getD { utilization := none, resets_at := none }
        let account := profile.account.getD { full_name := none }
        let org := profile.organization.getD
          { name := none, organization_type := none, rate_limit_tier := none }
        let fivePct : Int := (fiveHour.utilization.getD 0).floor
        let sevenPct : Int := (sevenDay.utilization.getD 0).floor
        let resetAt := fiveHour.resets_at
        let state0 := loadState env.stateFile
        let checked := checkAndNotify env.parseDate env.now fivePct resetAt state0
        let saved := if env.saveFails then none else some checked.1
        let cssClass :=
          if fivePct > 80 then "critical"
          else if fivePct > 50 then "warning"
          else "normal"
        let tooltipLines : List String :=
          [account.full_name.getD "Unknown" ++ " @ " ++ org.name.getD "Unknown",
           "",
           "5-hour:  " ++ padStart 3 ' ' (toString fivePct) ++ "% used",
           "         resets in " ++ timeUntil env.parseDate env.now fiveHour.resets_at ++
             " (" ++ formatResetTime env.parseDate env.localParts fiveHour.resets_at ++ ")",
           "",
           "7-day:   " ++ padStart 3 ' ' (toString sevenPct) ++ "% used",
           "         resets in " ++ timeUntil env.parseDate env.now sevenDay.resets_at ++
             " (" ++ formatResetTime env.parseDate env.localParts sevenDay.resets_at ++ ")",
           "",
           "Plan: " ++ titleCaseWords (replaceUnderscores (org.organization_type.getD "N/A")),
           "Tier: " ++ org.rate_limit_tier.getD "N/A"]
        let extra := usage.extra_usage.getD
          { is_enabled := none, used_credits := none, monthly_limit := none }
        let tooltipLines2 :=
          if extra.is_enabled.getD false then
            let used := extra.used_credits.getD 0
            if extra.monthly_limit.getD 0 ≠ 0 then
              tooltipLines ++ ["Extra: $" ++ env.toFixed2 used ++ " / $" ++
                env.toFixed2 (extra.monthly_limit.getD 0)]
            else
              tooltipLines ++ ["Extra: $" ++ env.toFixed2 used ++ " (no limit)"]
          else tooltipLines
        { out := { text := "󰧑   " ++ toString fivePct ++ "%"
                   tooltip := String.intercalate "\n" tooltipLines2
                   cls := cssClass
                   percentage := some fivePct }
          saved := saved
          events := checked.2 }

/-! ## Concrete fixtures used by witnesses and counterexamples -/

/-- A date parser that fails on every string (all comparisons against
the resulting `NaN` are false). -/
def pdNone : String → Option Int := fun _ => none

/-- A Claude CLI credentials file holding a valid token without expiry. -/
def ccBoth : ClaudeCredentials :=
  { claudeAiOauth := some { accessToken := some "claude-tok", expiresAt := none } }

/-- An OpenCode auth file holding a valid oauth token without expiry. -/
def ocBoth : OpenCodeAuth :=
  { anthropic :=
      some { type := some "oauth", access := some "opencode-tok", expires := none } }

/-- An OpenCode auth file whose credential carries `expires: 0`. -/
def ocZeroExpiry (tok : String) : OpenCodeAuth :=
  { anthropic := some { type := some "oauth", access := some tok, expires := some 0 } }

/-- A date parser that sends every string to a fixed instant. -/
def pdFixed : String → Option Int := fun _ => some 1700000000000

/-- A local-time decomposition that puts every instant at Sun 00:00. -/
def lpZero : Int → Nat × Nat × Nat := fun _ => (0, 0, 0)

/-- A `toFixed(2)` stub environment value (its output never matters for
the claims below). -/
def tfZero : Rat → String := fun _ => "0.00"

/-- A usage response with no error and 10% five-hour utilization. -/
def usageBenign : UsageResponse :=
  { five_hour := some { utilization := some 10, resets_at := none }
    seven_day := none, extra_usage := none, error := none }

/-- A profile response carrying a top-level error object. -/
def profileWithError : ProfileResponse :=
  { account := none, organization := none
    error := some { message := some "boom" } }

/-- A profile response with no error and no optional data. -/
def profileBenign : ProfileResponse :=
  { account := none, organization := none, error := none }

/-- An invocation whose usage response is fine but whose profile
response carries a top-level error object. -/
def envProfileError : Env :=
  { parseDate := pdNone, localParts := lpZero, toFixed2 := tfZero
    now := 0, claudeCreds := some ccBoth, openCodeAuth := none
    fetchResult := .ok (usageBenign, profileWithError)
    stateFile := .missing, saveFails := false }

/-- A usage response carrying a top-level error object (window data
present regardless). -/
def usageWithError : UsageResponse :=
  { five_hour := some { utilization := some 42, resets_at := none }
    seven_day := none, extra_usage := none
    error := some { message := some "overloaded" } }

/-- An invocation whose usage response carries a top-level error. -/
def envUsageError : Env :=
  { parseDate := pdNone, localParts := lpZero, toFixed2 := tfZero
    now := 0, claudeCreds := some ccBoth, openCodeAuth := none
    fetchResult := .ok (usageWithError, profileBenign)
    stateFile := .missing, saveFails := false }

/-- A usage response reporting 19% five-hour utilization. -/
def usage19 : UsageResponse :=
  { five_hour := some { utilization := some 19, resets_at := none }
    seven_day := none, extra_usage := none, error := none }

/-- A successful invocation at 19% utilization. -/
def env19 : Env :=
  { parseDate := pdNone, localParts := lpZero, toFixed2 := tfZero
    now := 0, claudeCreds := some ccBoth, openCodeAuth := none
    fetchResult := .ok (usage19, profileBenign)
    stateFile := .missing, saveFails := false }

/-! ## Characterization of the threshold loop -/

/-- The pre-evaluation notified list of `checkAndNotify`: the persisted
one when the strict marker comparison says "same", else empty. -/
def baseOf (st : State) (resetAt : Option String) : List Int :=
  if strictNeMarker st.last_reset resetAt then [] else st.notified_thresholds

/-- The thresholds that fire in one pass of the loop, given the floored
utilization and the pre-evaluation notified list. -/
def firedOf (fivePct : Int) (base : List Int) : List Int :=
  THRESHOLDS.filter (fun t => decide (fivePct ≥ t ∧ t ∉ base))

/-- Folding the notification loop body over a duplicate-free threshold
list appends exactly the thresholds that are reached and not yet
notified, and records one notification per appended threshold. -/
theorem foldl_notifyStep (pd : String → Option Int) (now fivePct : Int)
    (resetAt : Option String) :
    ∀ (ts : List Int), ts.Nodup →
      ∀ (base : List Int) (evs : List NotifyEvent),
      ts.foldl (notifyStep pd now fivePct resetAt) (base, evs) =
        (base ++ ts.filter (fun t => decide (fivePct ≥ t ∧ t ∉ base)),
         evs ++ (ts.filter (fun t => decide (fivePct ≥ t ∧ t ∉ base))).map
           (eventFor pd now fivePct resetAt)) := by
  intro ts
  induction ts with
  | nil => intro _ base evs; simp
  | cons t ts ih =>
    intro hnd base evs
    obtain ⟨hts, hnd'⟩ := List.nodup_cons.mp hnd
    by_cases hfire : fivePct ≥ t ∧ t ∉ base
    · have hstep : notifyStep pd now fivePct resetAt (base, evs) t =
          (base ++ [t], evs ++ [eventFor pd now fivePct resetAt t]) := by
        simp [notifyStep, hfire]
      have hcongr : ts.filter (fun x => decide (fivePct ≥ x ∧ x ∉ base ++ [t])) =
          ts.filter (fun x => decide (fivePct ≥ x ∧ x ∉ base)) := by
        refine List.filter_congr ?_
        intro x hx
        have hxt : x ≠ t := fun h => hts (h ▸ hx)
        simp [List.mem_append, hxt]
      calc (t :: ts).foldl (notifyStep pd now fivePct resetAt) (base, evs)
          = ts.foldl (notifyStep pd now fivePct resetAt)
              (base ++ [t], evs ++ [eventFor pd now fivePct resetAt t]) := by
            simp [List.foldl_cons, hstep]
        _ = (base ++ [t] ++ ts.filter (fun x => decide (fivePct ≥ x ∧ x ∉ base)),
             evs ++ [eventFor pd now fivePct resetAt t] ++
               (ts.filter (fun x => decide (fivePct ≥ x ∧ x ∉ base))).map
                 (eventFor pd now fivePct resetAt)) := by
            rw [ih hnd' (base ++ [t]) (evs ++ [eventFor pd now fivePct resetAt t]),
              hcongr]
        _ = _ := by
            simp [List.filter_cons, hfire, List.append_assoc]
    · have hstep : notifyStep pd now fivePct resetAt (base, evs) t = (base, evs) := by
        simp only [notifyStep, if_neg hfire]
      have hfilter : (t :: ts).filter (fun x => decide (fivePct ≥ x ∧ x ∉ base)) =
          ts.filter (fun x => decide (fivePct ≥ x ∧ x ∉ base)) := by
        simp [List.filter_cons, hfire]
      rw [List.foldl_cons, hstep, ih hnd' base evs, hfilter]

/-- `THRESHOLDS` has no duplicates. -/
theorem thresholds_nodup : THRESHOLDS.Nodup := by decide

/-- Closed form of one `checkAndNotify` invocation: the new notified
list is the pre-evaluation list followed by the thresholds that fire,
the marker is adopted exactly when the strict comparison saw a
difference, and one notification is sent per fired threshold. -/
theorem checkAndNotify_run (pd : String → Option Int) (now fivePct : Int)
    (resetAt : Option String) (st : State) :
    checkAndNotify pd now fivePct resetAt st =
      ({ notified_thresholds :=
           baseOf st resetAt ++ firedOf fivePct (baseOf st resetAt),
         last_reset :=
           if strictNeMarker st.last_reset resetAt then resetAt
           else st.last_reset },
       (firedOf fivePct (baseOf st resetAt)).map
         (eventFor pd now fivePct resetAt)) := by
  unfold checkAndNotify baseOf firedOf
  by_cases hm : strictNeMarker st.last_reset resetAt
  · simp only [hm, if_true]
    rw [foldl_notifyStep pd now fivePct resetAt THRESHOLDS thresholds_nodup]
    simp
  · simp only [hm, if_false, Bool.false_eq_true]
    rw [foldl_notifyStep pd now fivePct resetAt THRESHOLDS thresholds_nodup]
    simp

/-- The strict marker comparison reports "same" exactly when both sides
are present strings and equal; `null` on the left versus `undefined` on
the right (both `none` here) counts as different. -/
theorem strictNeMarker_eq_false_iff (a b : Option String) :
    strictNeMarker a b = false ↔ ∃ m, a = some m ∧ b = some m := by
  cases a with
  | none => simp [strictNeMarker]
  | some x =>
    cases b with
    | none => simp [strictNeMarker]
    | some y =>
      simp only [strictNeMarker, decide_eq_false_iff_not, not_not,
        Option.some.injEq]
      constructor
      · intro h
        exact ⟨y, h, rfl⟩
      · rintro ⟨m, rfl, h2⟩
        exact h2.symm

/-- A second pass fires nothing once the first pass's thresholds are in
the notified list. -/
theorem firedOf_append_self (u : Int) (base : List Int) :
    firedOf u (base ++ firedOf u base) = [] := by
  unfold firedOf
  rw [List.filter_eq_nil_iff]
  intro t ht hdec
  rw [decide_eq_true_eq] at hdec
  obtain ⟨hu, hmem⟩ := hdec
  apply hmem
  rw [List.mem_append]
  by_cases hb : t ∈ base
  · exact Or.inl hb
  · right
    rw [List.mem_filter]
    exact ⟨ht, by simp [hu, hb]⟩

/-! ## Claims -/

/-- C1 counterexample: with both markers absent (`last_reset = null`
persisted, `resets_at` undefined) and utilization 0, `checkAndNotify`
clears `notified_thresholds` — `{50}` does not survive — because JS
strict `!==` distinguishes `null` from `undefined`.  This refutes "when
both markers are absent the set is not cleared". -/
theorem c1_both_absent_markers_still_clear :
    (checkAndNotify (fun _ => none) 0 0 none
      { notified_thresholds := [50], last_reset := none }).1.notified_thresholds
      ≠ [50] := by
  decide

/-- C1 (amended): on each `checkAndNotify` invocation the notified set
is cleared and the new marker adopted exactly when the strict
comparison `last_reset !== resetAt` sees a difference, which happens
unless both markers are present and equal — in particular also when
both are absent; and elements only ever leave the set through that
clear (the result is the kept-or-cleared base with fired thresholds
appended). -/
theorem c1_clear_iff_strict_marker_mismatch (pd : String → Option Int)
    (now u : Int) (resetAt : Option String) (st : State) :
    (strictNeMarker st.last_reset resetAt = false ↔
       ∃ m, st.last_reset = some m ∧ resetAt = some m) ∧
    baseOf st resetAt =
      (if strictNeMarker st.last_reset resetAt then []
       else st.notified_thresholds) ∧
    (checkAndNotify pd now u resetAt st).1.notified_thresholds =
      baseOf st resetAt ++ firedOf u (baseOf st resetAt) ∧
    (checkAndNotify pd now u resetAt st).1.last_reset =
      (if strictNeMarker st.last_reset resetAt then resetAt
       else st.last_reset) := by
  refine ⟨strictNeMarker_eq_false_iff _ _, rfl, ?_, ?_⟩
  · rw [checkAndNotify_run]
  · rw [checkAndNotify_run]

/-- C2 counterexample: with an absent reset marker, running the
notifier a second time on the state produced by a first run (same
utilization 50) sends notifications again: every invocation re-clears
the set because `null !== undefined`, so the second application is not
idempotent. -/
theorem c2_second_run_refires_when_marker_absent :
    (checkAndNotify (fun _ => none) 0 50 none
      ((checkAndNotify (fun _ => none) 0 50 none
        { notified_thresholds := [], last_reset := none }).1)).2 ≠ [] := by
  decide

/-- C2 (amended): for every utilization and every state, when the reset
marker is present, re-running `checkAndNotify` on the state produced by
a first run with the same inputs fires zero notifications and returns
the state unchanged.  (With an absent marker this fails, see the
counterexample.) -/
theorem c2_idempotent_with_present_marker (pd : String → Option Int)
    (now u : Int) (m : String) (st : State) :
    (checkAndNotify pd now u (some m)
       (checkAndNotify pd now u (some m) st).1).2 = [] ∧
    (checkAndNotify pd now u (some m)
       (checkAndNotify pd now u (some m) st).1).1 =
      (checkAndNotify pd now u (some m) st).1 := by
  have hrun := checkAndNotify_run pd now u (some m) st
  have hfst : (checkAndNotify pd now u (some m) st).1 =
      { notified_thresholds :=
          baseOf st (some m) ++ firedOf u (baseOf st (some m)),
        last_reset := some m } := by
    rw [hrun]
    by_cases hm : strictNeMarker st.last_reset (some m) = true
    · simp [hm]
    · rw [Bool.not_eq_true] at hm
      obtain ⟨m', hst, hmm⟩ := (strictNeMarker_eq_false_iff _ _).mp hm
      simp [hm, hst, ← hmm]
  have hrun2 := checkAndNotify_run pd now u (some m)
    (checkAndNotify pd now u (some m) st).1
  rw [hfst] at hrun2
  have hb2 : baseOf
      { notified_thresholds :=
          baseOf st (some m) ++ firedOf u (baseOf st (some m)),
        last_reset := some m } (some m) =
      baseOf st (some m) ++ firedOf u (baseOf st (some m)) := by
    unfold baseOf
    simp [strictNeMarker]
  rw [hb2, firedOf_append_self] at hrun2
  rw [hfst, hrun2]
  constructor
  · simp
  · simp [strictNeMarker]

/-- C3: with no epoch change (present, unchanged marker) and
`0 ≤ u ≤ 100`, one invocation returns the already-notified list `S`
with exactly the reached, not-yet-notified thresholds appended (so a
superset of `S`), fires exactly one alert per appended threshold, and
a jump to 92 from an empty set fires 50, 80 and 90 but not 95. -/
theorem c3_transition_monotone_union (pd : String → Option Int)
    (now : Int) (u : Int) (S : List Int) (m : String)
    (h0 : 0 ≤ u) (h1 : u ≤ 100) :
    ((checkAndNotify pd now u (some m)
        { notified_thresholds := S, last_reset := some m }).1.notified_thresholds =
      S ++ THRESHOLDS.filter (fun t => decide (u ≥ t ∧ t ∉ S))) ∧
    S ⊆ (checkAndNotify pd now u (some m)
        { notified_thresholds := S, last_reset := some m }).1.notified_thresholds ∧
    ((checkAndNotify pd now u (some m)
        { notified_thresholds := S, last_reset := some m }).2.map
          (fun e => e.threshold) =
      THRESHOLDS.filter (fun t => decide (u ≥ t ∧ t ∉ S))) ∧
    ((checkAndNotify pd now 92 (some m)
        { notified_thresholds := [], last_reset := some m }).2.map
          (fun e => e.threshold) = [50, 80, 90]) := by
  have hb : baseOf { notified_thresholds := S, last_reset := some m } (some m) = S := by
    unfold baseOf
    simp [strictNeMarker]
  have hb0 : baseOf { notified_thresholds := ([] : List Int), last_reset := some m }
      (some m) = [] := by
    unfold baseOf
    simp [strictNeMarker]
  refine ⟨?_, ?_, ?_, ?_⟩
  · rw [checkAndNotify_run]
    simp only [hb]
    rfl
  · rw [checkAndNotify_run]
    simp only [hb]
    exact List.subset_append_left _ _
  · rw [checkAndNotify_run]
    simp only [hb, List.map_map]
    have hcomp : ((fun e => e.threshold) ∘ eventFor pd now u (some m)) =
        fun t => t := by
      funext t
      rfl
    rw [hcomp, List.map_id']
    rfl
  · rw [checkAndNotify_run]
    simp only [hb0, List.map_map]
    have hcomp : ((fun e => e.threshold) ∘ eventFor pd now 92 (some m)) =
        fun t => t := by
      funext t
      rfl
    rw [hcomp, List.map_id']
    decide

/-- Witness for C3 at the concrete jump 0% to 92% from an empty
notified set: thresholds 50, 80 and 90 fire, 95 does not. -/
theorem c3_transition_monotone_union_witness :
    ((0 : Int) ≤ 92 ∧ (92 : Int) ≤ 100) ∧
    (((checkAndNotify pdNone 0 92 (some "A")
        { notified_thresholds := [], last_reset := some "A" }).1.notified_thresholds =
      [] ++ THRESHOLDS.filter (fun t => decide ((92 : Int) ≥ t ∧ t ∉ ([] : List Int)))) ∧
    ([] : List Int) ⊆ (checkAndNotify pdNone 0 92 (some "A")
        { notified_thresholds := [], last_reset := some "A" }).1.notified_thresholds ∧
    ((checkAndNotify pdNone 0 92 (some "A")
        { notified_thresholds := [], last_reset := some "A" }).2.map
          (fun e => e.threshold) =
      THRESHOLDS.filter (fun t => decide ((92 : Int) ≥ t ∧ t ∉ ([] : List Int)))) ∧
    ((checkAndNotify pdNone 0 92 (some "A")
        { notified_thresholds := [], last_reset := some "A" }).2.map
          (fun e => e.threshold) = [50, 80, 90])) :=
  ⟨⟨by decide, by decide⟩,
   c3_transition_monotone_union pdNone 0 92 [] "A" (by decide) (by decide)⟩

/-- C4: every notification's urgency and icon are a pure function of
its threshold (the map `severityFor` extracted from the loop), and on
the four configured thresholds: 90 and 95 are "critical" with the red
circle, 80 is "critical" with the orange circle, 50 is "normal" with
the yellow circle. -/
theorem c4_severity_pure_in_threshold (pd : String → Option Int)
    (now u : Int) (resetAt : Option String) (st : State) :
    ((checkAndNotify pd now u resetAt st).2.map (fun e => (e.urgency, e.icon)) =
      (checkAndNotify pd now u resetAt st).2.map (fun e => severityFor e.threshold)) ∧
    severityFor 90 = ("critical", "🔴") ∧
    severityFor 95 = ("critical", "🔴") ∧
    severityFor 80 = ("critical", "🟠") ∧
    severityFor 50 = ("normal", "🟡") := by
  refine ⟨?_, by decide, by decide, by decide, by decide⟩
  rw [checkAndNotify_run]
  simp [List.map_map, eventFor]

/-- C5: whenever both credential sources yield valid, unexpired tokens,
`getAccessToken` returns the Claude CLI token, never the OpenCode one;
and as a function of the OpenCode source its result is constant — the
resolver stops at the first match without consulting the remaining
source. -/
theorem c5_first_source_wins (pd : String → Option Int) (now : Int)
    (cc : Option ClaudeCredentials) (oc : Option OpenCodeAuth)
    (t1 t2 : String)
    (h1 : getClaudeToken pd now cc = some t1)
    (h2 : getOpenCodeToken pd now oc = some t2) :
    getAccessToken pd now cc oc = some t1 ∧
    (fun oc2 => getAccessToken pd now cc oc2) =
      (fun _ : Option OpenCodeAuth => some t1) := by
  constructor
  · unfold getAccessToken
    rw [h1]
  · funext oc2
    unfold getAccessToken
    rw [h1]

/-- Witness for C5 at a concrete pair of credential files that both
yield valid tokens. -/
theorem c5_first_source_wins_witness :
    (getClaudeToken pdNone 0 (some ccBoth) = some "claude-tok" ∧
     getOpenCodeToken pdNone 0 (some ocBoth) = some "opencode-tok") ∧
    (getAccessToken pdNone 0 (some ccBoth) (some ocBoth) = some "claude-tok" ∧
     (fun oc2 => getAccessToken pdNone 0 (some ccBoth) oc2) =
       (fun _ : Option OpenCodeAuth => some "claude-tok")) :=
  ⟨⟨by decide, by decide⟩,
   c5_first_source_wins pdNone 0 (some ccBoth) (some ocBoth)
     "claude-tok" "opencode-tok" (by decide) (by decide)⟩

/-- C6: the expiry comparison `now >= expiryTime` is inclusive — an
expiry exactly equal to the current time counts as expired — both for
the ISO-string encoding (any nonempty string parsing to `now`) and for
the epoch-milliseconds encoding (with the real clock positive, so the
value is truthy); and a credential with no expiry field at all is never
expired. -/
theorem c6_expiry_boundary_inclusive (pd : String → Option Int)
    (now : Int) (s : String)
    (hs : s ≠ "") (hp : pd s = some now) (hn : 0 < now) :
    isExpired pd now (.str s) = true ∧
    isExpired pd now (.num now) = true ∧
    isExpired pd now .undefined = false := by
  refine ⟨?_, ?_, rfl⟩
  · unfold isExpired jsTruthyExp
    simp [hs, hp]
  · have hz : now ≠ 0 := by omega
    unfold isExpired jsTruthyExp
    simp [hz]

/-- Witness for C6 at the concrete instant 1700000000000 ms with a
string expiry parsing to exactly that instant. -/
theorem c6_expiry_boundary_inclusive_witness :
    ("2023-11-14T22:13:20Z" ≠ "" ∧
     pdFixed "2023-11-14T22:13:20Z" = some 1700000000000 ∧
     (0 : Int) < 1700000000000) ∧
    (isExpired pdFixed 1700000000000 (.str "2023-11-14T22:13:20Z") = true ∧
     isExpired pdFixed 1700000000000 (.num 1700000000000) = true ∧
     isExpired pdFixed 1700000000000 .undefined = false) :=
  ⟨⟨by decide, rfl, by decide⟩,
   c6_expiry_boundary_inclusive pdFixed 1700000000000 "2023-11-14T22:13:20Z"
     (by decide) rfl (by decide)⟩

/-- C10: a numeric expiry of `0` (the epoch, strictly in the past since
`0 < now`) is treated like an absent expiry: the falsiness guard makes
`isExpired` report "not expired", and `getOpenCodeToken` accepts the
credential as valid. -/
theorem c10_zero_expiry_treated_as_absent (pd : String → Option Int)
    (now : Int) (tok : String) (hn : 0 < now) (ht : tok ≠ "") :
    isExpired pd now (.num 0) = false ∧
    getOpenCodeToken pd now (some (ocZeroExpiry tok)) = some tok := by
  constructor
  · rfl
  · unfold getOpenCodeToken ocZeroExpiry
    simp [ht, isExpired, jsTruthyExp, expValOfNum]

/-- Witness for C10 at the concrete clock 1000 ms and token "oc-tok". -/
theorem c10_zero_expiry_treated_as_absent_witness :
    ((0 : Int) < 1000 ∧ "oc-tok" ≠ "") ∧
    (isExpired pdNone 1000 (.num 0) = false ∧
     getOpenCodeToken pdNone 1000 (some (ocZeroExpiry "oc-tok")) =
       some "oc-tok") :=
  ⟨⟨by decide, by decide⟩,
   c10_zero_expiry_treated_as_absent pdNone 1000 "oc-tok" (by decide) (by decide)⟩

/-- C7 counterexample: with a benign usage response but a profile
response carrying a top-level error object, the payload class is
"normal" with a percentage present, not the error class — a profile
error does not short-circuit the output. -/
theorem c7_profile_error_is_ignored :
    profileWithError.error = some { message := some "boom" } ∧
    (main envProfileError).out.cls = "normal" ∧
    (main envProfileError).out.cls ≠ "error" := by
  refine ⟨rfl, by decide, by decide⟩

/-- C7 (amended): only the **usage** response's top-level error object
short-circuits: the program then emits the error payload carrying the
error's message in the tooltip, with no percentage, no state write and
no notifications, regardless of any window data.  A profile error
object is ignored (see the counterexample). -/
theorem c7_usage_error_short_circuits (env : Env)
    (tok : String) (u : UsageResponse) (p : ProfileResponse)
    (err : ApiError)
    (h1 : getAccessToken env.parseDate env.now env.claudeCreds
      env.openCodeAuth = some tok)
    (h2 : env.fetchResult = .ok (u, p))
    (h3 : u.error = some err) :
    main env =
      { out := { text := "󰧑 !"
                 tooltip := "API error: " ++ err.message.getD "Unknown"
                 cls := "error", percentage := none }
        saved := none, events := [] } := by
  unfold main
  rw [h1, h2]
  dsimp only
  rw [h3]

/-- Witness for the amended C7 at a concrete erroring usage response. -/
theorem c7_usage_error_short_circuits_witness :
    (getAccessToken envUsageError.parseDate envUsageError.now
       envUsageError.claudeCreds envUsageError.openCodeAuth =
         some "claude-tok" ∧
     envUsageError.fetchResult = .ok (usageWithError, profileBenign) ∧
     usageWithError.error = some { message := some "overloaded" }) ∧
    main envUsageError =
      { out := { text := "󰧑 !"
                 tooltip := "API error: " ++
                   (ApiError.mk (some "overloaded")).message.getD "Unknown"
                 cls := "error", percentage := none }
        saved := none, events := [] } :=
  ⟨⟨by decide, rfl, rfl⟩,
   c7_usage_error_short_circuits envUsageError "claude-tok"
     usageWithError profileBenign (ApiError.mk (some "overloaded")) (by decide) rfl rfl⟩

/-- C8: on every successful invocation (token resolved, both fetches
resolved, no usage error), the payload class is "critical" iff the
floored five-hour utilization strictly exceeds 80, "warning" iff it
strictly exceeds 50 and is at most 80, and "normal" iff it is at most
50 — strict comparisons, with no further presentation effect at 90/95 —
and the percentage field carries exactly the floored utilization. -/
theorem c8_css_class_strict_cutpoints (env : Env)
    (tok : String) (u : UsageResponse) (p : ProfileResponse)
    (h1 : getAccessToken env.parseDate env.now env.claudeCreds
      env.openCodeAuth = some tok)
    (h2 : env.fetchResult = .ok (u, p))
    (h3 : u.error = none) :
    ((main env).out.cls = "critical" ↔
      80 < ((u.five_hour.getD { utilization := none, resets_at := none
        }).utilization.getD 0).floor) ∧
    ((main env).out.cls = "warning" ↔
      (50 < ((u.five_hour.getD { utilization := none, resets_at := none
        }).utilization.getD 0).floor ∧
       ((u.five_hour.getD { utilization := none, resets_at := none
        }).utilization.getD 0).floor ≤ 80)) ∧
    ((main env).out.cls = "normal" ↔
      ((u.five_hour.getD { utilization := none, resets_at := none
        }).utilization.getD 0).floor ≤ 50) ∧
    (main env).out.percentage =
      some ((u.five_hour.getD { utilization := none, resets_at := none
        }).utilization.getD 0).floor := by
  have hcls : (main env).out.cls =
      (if 80 < ((u.five_hour.getD { utilization := none, resets_at := none
          }).utilization.getD 0).floor then "critical"
       else if 50 < ((u.five_hour.getD { utilization := none, resets_at := none
          }).utilization.getD 0).floor then "warning"
       else "normal") := by
    unfold main
    rw [h1, h2]
    dsimp only
    rw [h3]
  have hpct : (main env).out.percentage =
      some ((u.five_hour.getD { utilization := none, resets_at := none
        }).utilization.getD 0).floor := by
    unfold main
    rw [h1, h2]
    dsimp only
    rw [h3]
  set q : Int := ((u.five_hour.getD { utilization := none, resets_at := none
    }).utilization.getD 0).floor with hq
  have hwc : ¬ (("warning" : String) = "critical") := by decide
  have hnc : ¬ (("normal" : String) = "critical") := by decide
  have hcw : ¬ (("critical" : String) = "warning") := by decide
  have hnw : ¬ (("normal" : String) = "warning") := by decide
  have hcn : ¬ (("critical" : String) = "normal") := by decide
  have hwn : ¬ (("warning" : String) = "normal") := by decide
  refine ⟨?_, ?_, ?_, hpct⟩ <;>
    rw [hcls] <;>
    by_cases h80 : 80 < q <;>
    by_cases h50 : 50 < q <;>
    simp [h80, h50, hwc, hnc, hcw, hnw, hcn, hwn] <;>
    omega

/-- Witness for C8 at utilization 19: the class is "normal" and the
percentage field is 19. -/
theorem c8_css_class_strict_cutpoints_witness :
    (getAccessToken env19.parseDate env19.now env19.claudeCreds
       env19.openCodeAuth = some "claude-tok" ∧
     env19.fetchResult = .ok (usage19, profileBenign) ∧
     usage19.error = none) ∧
    (((main env19).out.cls = "critical" ↔
      80 < ((usage19.five_hour.getD { utilization := none, resets_at := none
        }).utilization.getD 0).floor) ∧
    ((main env19).out.cls = "warning" ↔
      (50 < ((usage19.five_hour.getD { utilization := none, resets_at := none
        }).utilization.getD 0).floor ∧
       ((usage19.five_hour.getD { utilization := none, resets_at := none
        }).utilization.getD 0).floor ≤ 80)) ∧
    ((main env19).out.cls = "normal" ↔
      ((usage19.five_hour.getD { utilization := none, resets_at := none
        }).utilization.getD 0).floor ≤ 50) ∧
    (main env19).out.percentage =
      some ((usage19.five_hour.getD { utilization := none, resets_at := none
        }).utilization.getD 0).floor) ∧
    ((main env19).out.cls = "normal" ∧
     (main env19).out.percentage = some 19) :=
  ⟨⟨by decide, rfl, rfl⟩,
   c8_css_class_strict_cutpoints env19 "claude-tok" usage19 profileBenign
     (by decide) rfl rfl,
   by decide, by decide⟩

/-- C9: `loadState` returns the zero-value state on a missing file and
on unreadable or unparsable content, never propagating an error; and a
failed best-effort save changes nothing observable about the
invocation: the stdout payload and the notifications are those of a
successful save, only the state write itself is lost. -/
theorem c9_state_io_failures_swallowed :
    loadState .missing = { notified_thresholds := [], last_reset := none } ∧
    loadState .unreadable = { notified_thresholds := [], last_reset := none } ∧
    (∀ env : Env,
      (main { env with saveFails := true }).out =
        (main { env with saveFails := false }).out ∧
      (main { env with saveFails := true }).events =
        (main { env with saveFails := false }).events ∧
      (main { env with saveFails := true }).saved = none) := by
  refine ⟨rfl, rfl, ?_⟩
  intro env
  obtain ⟨pd, lp, tf, now, cc, oc, fr, stf, sv⟩ := env
  unfold main
  dsimp only
  cases getAccessToken pd now cc oc with
  | none => exact ⟨rfl, rfl, rfl⟩
  | some tok =>
    dsimp only
    cases fr with
    | error e => exact ⟨rfl, rfl, rfl⟩
    | ok up =>
      obtain ⟨u, p⟩ := up
      dsimp only
      cases u.error with
      | some err => exact ⟨rfl, rfl, rfl⟩
      | none => exact ⟨rfl, rfl, rfl⟩

end ClaudeUsage
